import Mathlib

/-!
Shallow embedding of the pytest-retry plugin (str0zzapreti/pytest-retry) and
proofs about its specification claims.

The definitions below are translated from the Python sources:
  pytest_retry/retry_plugin.py   (ExceptionFilter, RetryManager, the retry loop,
                                  should_handle_retry, pytest_runtest_makereport,
                                  pytest_collection_modifyitems)
  pytest_retry/configs.py        (the _Defaults registry and configure)
  pytest_retry/server.py         (report transport; the worker client is modelled
                                  from the specification, see the transport section)

Modelling conventions:
  - Python exception classes are identified by natural numbers.
  - Python float durations are modelled as rationals.
  - Python truthiness of option values and collections is made explicit in
    small helper functions.
  - Fallible Python code (raising ConfigurationError) returns Except.
-/

namespace PytestRetry

/-- Error raised by the plugin for invalid filter or option configuration
(class ConfigurationError in retry_plugin.py). -/
inductive PyError where
  | configurationError
deriving DecidableEq, Repr

/-- Argument passed for the expected or excluded exception collections.
The Python code receives an arbitrary object here: either an iterable of
exception classes (modelled as a list of class identifiers) or a truthy
non-iterable object, for which the membership test raises TypeError. -/
inductive FilterArg where
  | coll (l : List Nat) : FilterArg
  | nonIter : FilterArg
deriving DecidableEq, Repr

/-- Python truthiness of a filter argument: an iterable is truthy when
non-empty; the non-iterable objects considered here (for example an
exception class passed bare) are truthy. -/
def FilterArg.truthy : FilterArg → Bool
  | .coll l => !l.isEmpty
  | .nonIter => true

/-- Python `a or b` on filter arguments: the left operand when truthy,
otherwise the right operand. -/
def pyOr (a b : FilterArg) : FilterArg := if a.truthy then a else b

/-- ExceptionFilter (retry_plugin.py lines 29-54): stores list_type, the
truthiness of the expected collection, and filter, the first truthy operand
of expected or excluded or []. -/
structure ExceptionFilter where
  list_type : Bool
  filter : FilterArg
deriving DecidableEq, Repr

/-- Constructor of ExceptionFilter: raises ConfigurationError when both the
expected and the excluded collections are truthy, otherwise stores
list_type := bool(expected) and filter := expected or excluded or []. -/
def ExceptionFilter.init (expected excluded : FilterArg) : Except PyError ExceptionFilter :=
  if expected.truthy && excluded.truthy then Except.error PyError.configurationError
  else Except.ok { list_type := expected.truthy,
                   filter := pyOr expected (pyOr excluded (FilterArg.coll [])) }

/-- Membership test of an optional exception class in a filter argument;
the Python expression is exception_type in self.filter, which raises
TypeError on a non-iterable filter. None is a member of no class list. -/
def FilterArg.containsExc : FilterArg → Option Nat → Except PyError Bool
  | .coll l, some e => Except.ok (l.contains e)
  | .coll _, none => Except.ok false
  | .nonIter, _ => Except.error PyError.configurationError

/-- ExceptionFilter.__call__: returns true when the stored filter is falsy,
otherwise compares list_type with the membership of the exception class in
the stored collection; a TypeError from the membership test is re-raised as
ConfigurationError. -/
def ExceptionFilter.call (f : ExceptionFilter) (e : Option Nat) : Except PyError Bool :=
  if f.filter.truthy = false then Except.ok true
  else
    match f.filter.containsExc e with
    | Except.ok b => Except.ok (f.list_type == b)
    | Except.error err => Except.error err

/-- ExceptionFilter.__bool__: truthiness of the stored filter collection. -/
def ExceptionFilter.toBool (f : ExceptionFilter) : Bool := f.filter.truthy

/-- Composition of the per-test and global exception filters as performed in
pytest_runtest_makereport (retry_plugin.py lines 192-195): the per-test
filter is constructed first; the Python or operator returns it when it is
truthy, and only otherwise constructs and returns the global filter built
from the registry exception sets. -/
def composedFilter (perOnly perExclude globFiltered globExcluded : FilterArg) :
    Except PyError ExceptionFilter :=
  match ExceptionFilter.init perOnly perExclude with
  | Except.error err => Except.error err
  | Except.ok per =>
      if per.toBool then Except.ok per
      else ExceptionFilter.init globFiltered globExcluded

/-- Filter semantics as worded by the specification, for iterable arguments:
construction fails when both sets are non-empty; a non-empty only_on set
means membership, a non-empty exclude set means non-membership, both empty
means always true. Written from the words of the specification for
comparison with the code. -/
def filterSpecCall (only_on exclude : List Nat) (e : Nat) : Except PyError Bool :=
  if only_on ≠ [] ∧ exclude ≠ [] then Except.error PyError.configurationError
  else if only_on ≠ [] then Except.ok (decide (e ∈ only_on))
  else if exclude ≠ [] then Except.ok (decide (e ∉ exclude))
  else Except.ok true

/-- Stage of a test run, mirroring the stages tuple in retry_plugin.py. -/
inductive Stage where
  | setup
  | call
  | teardown
deriving DecidableEq, Repr

/-- Exception information attached to a CallInfo: the class of the raised
exception and the typename the code compares against "Skipped". -/
structure ExcInfo where
  excType : Nat
  typename : String
deriving DecidableEq, Repr

/-- CallInfo as consumed by the retry decision: the optional exception info
and the stage the call belongs to. -/
structure CallInfo where
  excinfo : Option ExcInfo
  whenStage : Stage
deriving DecidableEq, Repr

/-- should_handle_retry (retry_plugin.py lines 143-153): no retry handling
when the call raised no exception, when the stage is setup or teardown, or
when the raised exception is Skipped. -/
def should_handle_retry (c : CallInfo) : Bool :=
  match c.excinfo with
  | none => false
  | some exc =>
    if c.whenStage = Stage.setup ∨ c.whenStage = Stage.teardown then false
    else if exc.typename = "Skipped" then false
    else true

/-- Keyword arguments of a flaky marker, each absent when the keyword was
not given. The condition field records a boolean value only when the user
passed a boolean, matching the Python test condition is False. -/
structure FlakyMark where
  condition : Option Bool
  only_on : FilterArg
  exclude : FilterArg
  retries : Option Nat
  delay : Option ℚ
  cumulative_timing : Option Bool
deriving DecidableEq, Repr

/-- Test item as consumed by the retry decision: the closest flaky marker,
when present. -/
structure TestItem where
  flakyMark : Option FlakyMark
deriving DecidableEq, Repr

/-- Fields of the original test report consulted by the retry decision.
The skipped flag is true exactly for reports whose outcome is skipped; at
the point of the check this can only happen for tests carrying the xfail
marker, since a raised Skipped exception was already filtered out. -/
structure ReportInfo where
  skipped : Bool
deriving DecidableEq, Repr

/-- Guard chain of pytest_runtest_makereport (retry_plugin.py lines
178-197) deciding whether the retry loop is entered: ok true means the
loop is entered, ok false means the hook returns without retrying, and an
error means ConfigurationError propagates out of the filter machinery. -/
def retryDecision (globFiltered globExcluded : FilterArg) (item : TestItem)
    (call : CallInfo) (report : ReportInfo) : Except PyError Bool :=
  if should_handle_retry call = false then Except.ok false
  else if report.skipped = true then Except.ok false
  else
    match item.flakyMark with
    | none => Except.ok false
    | some m =>
      if m.condition = some false then Except.ok false
      else
        match composedFilter m.only_on m.exclude globFiltered globExcluded with
        | Except.error err => Except.error err
        | Except.ok f => f.call (Option.map ExcInfo.excType call.excinfo)

/-- Per-test outcome sequences recorded by the RetryManager: one list of
outcome strings per stage, in recording order. -/
structure NodeOutcomes where
  setup : List String
  call : List String
  teardown : List String
deriving DecidableEq, Repr

/-- RetryManager.simple_outcome (retry_plugin.py lines 105-119): skipped or
failed when found among the setup outcomes (checked in that order), failed
when the call sequence is empty or its last outcome is failed, failed when
any teardown outcome is failed, passed otherwise. -/
def simple_outcome (o : NodeOutcomes) : String :=
  if "skipped" ∈ o.setup then "skipped"
  else if "failed" ∈ o.setup then "failed"
  else if o.call = [] ∨ o.call.getLast? = some "failed" then "failed"
  else if "failed" ∈ o.teardown then "failed"
  else "passed"

/-- Derived final outcome as worded by the specification: skipped if any
setup outcome is skipped; else failed if any setup outcome is failed, or
the call sequence is empty, or the last call outcome is failed, or any
teardown outcome is failed; else passed. Written from the words of the
specification for comparison with the code. -/
def final_outcome_spec (o : NodeOutcomes) : String :=
  if "skipped" ∈ o.setup then "skipped"
  else if "failed" ∈ o.setup ∨ o.call = [] ∨ o.call.getLast? = some "failed"
      ∨ "failed" ∈ o.teardown then "failed"
  else "passed"

/-- Result codes for retry report frames (retry_plugin.py lines 19-22). -/
def RETRY : Nat := 0

/-- Result code for the frame emitted when the retry budget is exhausted. -/
def FAIL : Nat := 1

/-- Result code for the frame emitted when a preliminary teardown raised. -/
def EXIT : Nat := 2

/-- Result code for the frame emitted when a retry attempt passed. -/
def PASS : Nat := 3

/-- Narrative message templates of RetryManager, indexed by result code
(retry_plugin.py lines 67-72). -/
def retryMessages : List String :=
  [" failed on attempt {attempt}! Retrying!\n\t",
   " failed after {attempt} attempts!\n\t",
   " teardown failed on attempt {attempt}! Exiting immediately!\n\t",
   " passed on attempt {attempt}!\n\t"]

/-- One call to RetryManager.log_attempt, identified by the attempt number,
the exception info passed for the traceback, and the result code selecting
the message template. -/
structure FrameLog where
  attempt : Nat
  exc : Option Nat
  result : Nat
deriving DecidableEq, Repr

/-- Environment of the retry loop: for the iteration entered with a given
attempt counter, the exception raised by the preliminary teardown (none
when it passes), the exception info of the re-executed call (none when it
passes), whether that exception is Skipped, and the duration of the
re-executed call. -/
structure RetryEnv where
  teardownExc : Nat → Option Nat
  retryExc : Nat → Option Nat
  retryExcSkipped : Nat → Bool
  retryDuration : Nat → ℚ

/-- State threaded through the retry loop of pytest_runtest_makereport:
the attempt counter, the fields of the original report mutated in place,
the recorded call-stage durations of the test, the narrative frames sent to
the report transport, the stashed outcome, the caplog-records stash flag,
the interim outcome label re-emitted on the first iteration, the number of
extra setup-and-call executions performed, the duration of the last
re-executed call, and whether the loop exited through the preliminary
teardown branch. -/
structure LoopState where
  attempts : Nat
  origOutcome : String
  origDuration : ℚ
  callDurations : List ℚ
  frames : List FrameLog
  stashOutcome : String
  caplogCleared : Bool
  emittedInterim : Option String
  retryCallsExecuted : Nat
  lastRetryDuration : ℚ
  exitedOnTeardown : Bool
deriving DecidableEq, Repr

/-- Exception info of the re-executed call of the current loop iteration
(the new call.excinfo after line 238 of retry_plugin.py). -/
def iterExc (env : RetryEnv) (s : LoopState) : Option Nat := env.retryExc s.attempts

/-- Duration of the re-executed call of the current loop iteration (the
duration of retry_report). -/
def iterDur (env : RetryEnv) (s : LoopState) : ℚ := env.retryDuration s.attempts

/-- Outcome of retry_report for the current loop iteration: passed when
the re-executed call raised nothing, skipped when it raised Skipped,
failed otherwise. -/
def iterOutcome (env : RetryEnv) (s : LoopState) : String :=
  match env.retryExc s.attempts with
  | none => "passed"
  | some _ => if env.retryExcSkipped s.attempts then "skipped" else "failed"

/-- State changes of one loop iteration after a passing preliminary
teardown (retry_plugin.py lines 227-247): on the first iteration the
original report is re-emitted with the interim outcome label and its
outcome restored to failed; a RETRY frame carrying the exception of the
previous attempt is logged; after the sleep and the fixture
re-initialization, setup and call are re-run and the new call duration is
recorded, becoming the duration of the last executed attempt. -/
def iterState (env : RetryEnv) (label : String) (lastExc : Option Nat)
    (s : LoopState) : LoopState :=
  { s with emittedInterim := if s.attempts = 1 then some label else s.emittedInterim
           origOutcome := if s.attempts = 1 then "failed" else s.origOutcome
           frames := s.frames ++ [FrameLog.mk s.attempts lastExc RETRY]
           callDurations := s.callDurations ++ [iterDur env s]
           retryCallsExecuted := s.retryCallsExecuted + 1
           lastRetryDuration := iterDur env s }

/-- Loop finalization (retry_plugin.py lines 254-270): the original report
receives the outcome of the last attempt, its duration is overwritten by
the duration of the last attempt when cumulative timing is off and by the
sum of all recorded call durations when it is on, a final FAIL or PASS
frame is logged, and the incremented attempt counter is kept. -/
def finalState (env : RetryEnv) (cumulativeTiming : Bool) (label : String)
    (lastExc : Option Nat) (s : LoopState) : LoopState :=
  { iterState env label lastExc s with
    attempts := s.attempts + 1
    origOutcome := iterOutcome env s
    origDuration := if cumulativeTiming = false then iterDur env s
                    else ((iterState env label lastExc s).callDurations).sum
    frames := (iterState env label lastExc s).frames ++
      [FrameLog.mk (s.attempts + 1) (iterExc env s)
        (if iterOutcome env s = "failed" then FAIL else PASS)] }

/-- Retry loop of pytest_runtest_makereport (retry_plugin.py lines
205-270). Each iteration performs the preliminary teardown; if it raised,
the stashed outcome is set to failed, an EXIT frame is logged, an empty
caplog-records map is installed and the loop breaks. Otherwise the
iteration re-runs the test as described at iterState, the attempt counter
is incremented, and the loop continues exactly when the new call did not
pass, the incremented counter is still within the retries bound and the
composed exception filter accepts the new exception class; otherwise it
finalizes as described at finalState. Errors raised by the re-executed
call or the preliminary teardown are captured by the host CallInfo
machinery, so the loop itself never propagates them; delays between
attempts are sleeps without observable effect on this state. -/
def retryLoop (env : RetryEnv) (filt : Option Nat → Bool) (retries : Nat)
    (cumulativeTiming : Bool) (label : String) (lastExc : Option Nat)
    (s : LoopState) : LoopState :=
  match env.teardownExc s.attempts with
  | some tdExc =>
    { s with stashOutcome := "failed"
             frames := s.frames ++ [FrameLog.mk s.attempts (some tdExc) EXIT]
             caplogCleared := true
             exitedOnTeardown := true }
  | none =>
    if _h : iterOutcome env s ≠ "passed" ∧ s.attempts + 1 ≤ retries
        ∧ filt (iterExc env s) = true then
      retryLoop env filt retries cumulativeTiming label (iterExc env s)
        { iterState env label lastExc s with attempts := s.attempts + 1 }
    else
      finalState env cumulativeTiming label lastExc s
termination_by retries - s.attempts
decreasing_by simp_all; omega

/-- Loop state at entry of the retry loop (retry_plugin.py lines 199-204):
the attempt counter starts at 1 and no frame has been logged yet. The
recorded call durations already contain the 0.0 seed written by
pytest_runtest_protocol and the duration of the original failed call. -/
def initialLoopState (origOutcome0 : String) (origDuration0 : ℚ)
    (initCallDurations : List ℚ) (stash0 : String) : LoopState :=
  { attempts := 1
    origOutcome := origOutcome0
    origDuration := origDuration0
    callDurations := initCallDurations
    frames := []
    stashOutcome := stash0
    caplogCleared := false
    emittedInterim := none
    retryCallsExecuted := 0
    lastRetryDuration := 0
    exitedOnTeardown := false }

/-- Whole retry phase for one test whose original call failed and whose
retry decision was positive: run the loop from the initial state. -/
def runRetryPhase (env : RetryEnv) (filt : Option Nat → Bool) (retries : Nat)
    (cumulativeTiming : Bool) (label : String) (origExc : Option Nat)
    (origOutcome0 : String) (origDuration0 : ℚ) (initCallDurations : List ℚ)
    (stash0 : String) : LoopState :=
  retryLoop env filt retries cumulativeTiming label origExc
    (initialLoopState origOutcome0 origDuration0 initCallDurations stash0)

/-- Environment in which no preliminary teardown ever raises and every
re-executed call fails again with exception class 5 and duration 0. -/
def envAlwaysFailing : RetryEnv :=
  { teardownExc := fun _ => none
    retryExc := fun _ => some 5
    retryExcSkipped := fun _ => false
    retryDuration := fun _ => 0 }

/-- Environment in which the preliminary teardown raises exception class 7
on every iteration. -/
def envTeardownFailing : RetryEnv :=
  { teardownExc := fun _ => some 7
    retryExc := fun _ => some 5
    retryExcSkipped := fun _ => false
    retryDuration := fun _ => 0 }

/-- Resolved option values of the _Defaults registry (configs.py): the
four options populated by configure. -/
structure ConfigOpts where
  retries : Int
  retry_delay : ℚ
  cumulative_timing : Bool
  retry_outcome : String
deriving DecidableEq, Repr

/-- Built-in default configuration (_DEFAULT_CONFIG in configs.py). -/
def defaultOpts : ConfigOpts :=
  { retries := 1, retry_delay := 0, cumulative_timing := false, retry_outcome := "retried" }

/-- Ini-style file values as returned by config.getini: the retries and
retry_delay keys are registered with type string, so a present key yields
its raw string; retry_delay and cumulative_timing are modelled after the
coercion performed by the host (float parsing and ini boolean parsing),
with none meaning the key is absent from the file. -/
structure IniFile where
  retries : Option String
  retry_delay : Option ℚ
  cumulative_timing : Option Bool
  retry_outcome : Option String
deriving DecidableEq, Repr

/-- Command-line flag values as returned by config.getoption: none when
the flag was not passed. -/
structure CliOptions where
  retries : Option Int
  retry_delay : Option ℚ
  cumulative_timing : Option Bool
  retry_outcome : Option String
deriving DecidableEq, Repr

/-- Python int() applied to the numeric strings the configuration code
feeds it. -/
def pyStrToInt (s : String) : Int := (s.toInt?).getD 0

/-- Truthiness of config.getini applied to the retries key: an absent key
yields the registered default 0, which is falsy; a present key yields its
string, truthy exactly when non-empty. -/
def iniRetriesTruthy (ini : IniFile) : Bool :=
  match ini.retries with
  | none => false
  | some s => s ≠ ""

/-- _Defaults.load_ini (configs.py lines 38-46): overwrite all four options
with the ini values, coercing retries through int and using the registered
ini defaults for absent keys. -/
def load_ini (ini : IniFile) : ConfigOpts :=
  { retries := pyStrToInt ((ini.retries).getD "0")
    retry_delay := (ini.retry_delay).getD 0
    cumulative_timing := (ini.cumulative_timing).getD false
    retry_outcome := (ini.retry_outcome).getD "retried" }

/-- Command-line pass of _Defaults.configure (configs.py lines 51-53):
every option whose flag value is not None is overwritten with it. -/
def cliOverride (cli : CliOptions) (o : ConfigOpts) : ConfigOpts :=
  { retries := (cli.retries).getD o.retries
    retry_delay := (cli.retry_delay).getD o.retry_delay
    cumulative_timing := (cli.cumulative_timing).getD o.cumulative_timing
    retry_outcome := (cli.retry_outcome).getD o.retry_outcome }

/-- _Defaults.configure (configs.py lines 48-53): load the ini values only
when config.getini applied to retries is truthy, then apply the
command-line overrides. -/
def configure (ini : IniFile) (cli : CliOptions) (opts : ConfigOpts) : ConfigOpts :=
  cliOverride cli (if iniRetriesTruthy ini then load_ini ini else opts)

/-- Collected test item as consumed by pytest_collection_modifyitems: its
keyword set and the retries values of the flaky markers added to it by the
plugin. -/
structure CollectedItem where
  keywords : List String
  addedFlakyRetries : List Int
deriving DecidableEq, Repr

/-- Python truthiness of config.getoption applied to the retries flag: the
flag is absent (None, falsy) or carries an int, falsy exactly at 0. -/
def pyTruthyOptInt : Option Int → Bool
  | none => false
  | some n => n != 0

/-- Condition guarding pytest_collection_modifyitems (retry_plugin.py line
369): the retries command-line flag or the retries ini key is truthy. -/
def globalRetriesConfigured (cliRetries : Option Int) (ini : IniFile) : Bool :=
  pyTruthyOptInt cliRetries || iniRetriesTruthy ini

/-- pytest_collection_modifyitems (retry_plugin.py lines 368-374): when a
global retry count is configured, add a flaky marker carrying the registry
default retries to every item whose keywords do not contain flaky;
otherwise leave the item list untouched. -/
def pytest_collection_modifyitems (cliRetries : Option Int) (ini : IniFile)
    (opts : ConfigOpts) (items : List CollectedItem) : List CollectedItem :=
  if globalRetriesConfigured cliRetries ini = false then items
  else items.map fun it =>
    if "flaky" ∈ it.keywords then it
    else { it with addedFlakyRetries := it.addedFlakyRetries ++ [opts.retries] }

/-- Narrative frame of the report transport: the test it belongs to, the
attempt it reports and whether its message template is the Retrying one
(the only template whose message ends with the Retrying suffix). -/
structure Frame where
  test : Nat
  attempt : Nat
  retrying : Bool
deriving DecidableEq, Repr

/-- Modelled from the spec: ClientReporter.record_attempt of the worker
transport client is absent from the sources in src (server.py holds only a
dead ReportClient skeleton without it). Following section 4.4 of the
specification, the client appends each frame to a local buffer and,
whenever the message of the current frame does not end with the Retrying
suffix, atomically sends the buffered bytes as one socket write and resets
the buffer. This function returns the sequence of atomic writes produced
from a buffer and a stream of frames. -/
def clientSend : List Frame → List Frame → List (List Frame)
  | _, [] => []
  | buf, f :: rest =>
      if f.retrying then clientSend (buf ++ [f]) rest
      else (buf ++ [f]) :: clientSend [] rest

/-- Complete per-test narrative record for test t: all frames belong to t,
every frame but the last uses the Retrying message, and the last frame
does not (section 3 of the specification: a complete per-test record ends
with a non-Retrying message). The last conjunct also forces the record to
be non-empty. -/
def completeRecord (t : Nat) (fs : List Frame) : Prop :=
  (∀ f ∈ fs, f.test = t) ∧ (∀ f ∈ fs.dropLast, f.retrying = true)
    ∧ (fs.getLast?).map Frame.retrying = some false

instance (t : Nat) (fs : List Frame) : Decidable (completeRecord t fs) := by
  unfold completeRecord
  infer_instance

/-- Frame stream emitted by one worker running its tests sequentially: the
concatenation of its per-test records in execution order. -/
def workerStream (w : List (Nat × List Frame)) : List Frame :=
  (w.map Prod.snd).flatten

/-- Atomic socket writes produced by the transport client of one worker
over its whole stream. -/
def workerWrites (w : List (Nat × List Frame)) : List (List Frame) :=
  clientSend [] (workerStream w)

/-- C5: for every recorded attempt statistics, the derived outcome of
RetryManager.simple_outcome is skipped if any setup outcome is skipped;
else failed if any setup outcome is failed, or the call sequence is empty,
or the last call outcome is failed, or any teardown outcome is failed;
else passed. -/
theorem C5_simple_outcome_matches_spec (o : NodeOutcomes) :
    simple_outcome o = final_outcome_spec o := by
  unfold simple_outcome final_outcome_spec
  split_ifs <;> simp_all

/-- C3: filter semantics. For iterable arguments, calling the filter built
from (only_on, exclude) on an exception class e yields true when both are
empty, membership of e in only_on when only_on is non-empty, and
non-membership of e in exclude when exclude is non-empty, while
construction fails with ConfigurationError when both are non-empty; and a
filter built from a truthy non-iterable argument fails with
ConfigurationError on its first call. -/
theorem C3_exception_filter_semantics (only_on exclude : List Nat) (e : Nat) :
    ((ExceptionFilter.init (FilterArg.coll only_on) (FilterArg.coll exclude)).bind
        (fun f => f.call (some e)) = filterSpecCall only_on exclude e)
  ∧ ((ExceptionFilter.init FilterArg.nonIter (FilterArg.coll [])).bind
        (fun f => f.call (some e)) = Except.error PyError.configurationError)
  ∧ ((ExceptionFilter.init (FilterArg.coll []) FilterArg.nonIter).bind
        (fun f => f.call (some e)) = Except.error PyError.configurationError) := by
  refine ⟨?_, ?_, ?_⟩
  · cases only_on <;> cases exclude <;>
      simp [ExceptionFilter.init, filterSpecCall, ExceptionFilter.call, pyOr,
        FilterArg.truthy, FilterArg.containsExc, Except.bind]
  · simp [ExceptionFilter.init, ExceptionFilter.call, pyOr,
      FilterArg.truthy, FilterArg.containsExc, Except.bind]
  · simp [ExceptionFilter.init, ExceptionFilter.call, pyOr,
      FilterArg.truthy, FilterArg.containsExc, Except.bind]

/-- C4: a constructed filter is truthy exactly when one of its two sets is
non-empty, and the composition used by the orchestrator returns the
per-test filter whenever it is truthy and only otherwise builds and
returns the global filter from the registry exception sets, so a truthy
per-test filter overrides the global filter entirely. -/
theorem C4_filter_composition (only_on exclude : List Nat)
    (globFiltered globExcluded : FilterArg) (per : ExceptionFilter)
    (h : ExceptionFilter.init (FilterArg.coll only_on) (FilterArg.coll exclude)
          = Except.ok per) :
    (per.toBool = true ↔ (only_on ≠ [] ∨ exclude ≠ []))
  ∧ composedFilter (FilterArg.coll only_on) (FilterArg.coll exclude)
      globFiltered globExcluded
      = (if per.toBool = true then Except.ok per
         else ExceptionFilter.init globFiltered globExcluded) := by
  cases only_on <;> cases exclude <;>
    simp_all [ExceptionFilter.init, composedFilter, ExceptionFilter.toBool, pyOr,
      FilterArg.truthy] <;>
    simp [← h, FilterArg.truthy]

/-- Witness for C4 at a concrete per-test filter with only_on = [1]. -/
theorem C4_filter_composition_witness :
    ((ExceptionFilter.mk true (FilterArg.coll [1])).toBool = true
        ↔ (([1] : List Nat) ≠ [] ∨ ([] : List Nat) ≠ []))
  ∧ composedFilter (FilterArg.coll [1]) (FilterArg.coll [])
      (FilterArg.coll [2]) (FilterArg.coll [])
      = (if (ExceptionFilter.mk true (FilterArg.coll [1])).toBool = true
         then Except.ok (ExceptionFilter.mk true (FilterArg.coll [1]))
         else ExceptionFilter.init (FilterArg.coll [2]) (FilterArg.coll [])) :=
  C4_filter_composition [1] [] (FilterArg.coll [2]) (FilterArg.coll [])
    (ExceptionFilter.mk true (FilterArg.coll [1])) rfl

/-- C7 counterexample: with an ini file defining only retry_outcome (and
no retries key) and no command-line flags, configure leaves the built-in
default, so a present and non-null ini value does not override the
built-in default, contrary to the claim. -/
theorem C7_counterexample_ini_value_ignored :
    (configure
        { retries := none, retry_delay := none, cumulative_timing := none,
          retry_outcome := some "flakey" }
        { retries := none, retry_delay := none, cumulative_timing := none,
          retry_outcome := none }
        defaultOpts).retry_outcome ≠ "flakey" := by decide

/-- C7 amended: configure consults the ini values only when the retries
ini key is present with a non-empty string; in that case the ini values
(coerced from string, absent keys falling back to values equal to the
built-in defaults) replace the built-in defaults, and command-line flag
values that are not None override the result; when the retries ini key is
absent or empty, all ini values are ignored and the command-line flags
override the built-in defaults directly. -/
theorem C7_configure_priority (ini : IniFile) (cli : CliOptions) :
    (iniRetriesTruthy ini = true →
        configure ini cli defaultOpts = cliOverride cli (load_ini ini))
  ∧ (iniRetriesTruthy ini = false →
        configure ini cli defaultOpts = cliOverride cli defaultOpts) := by
  constructor <;> intro h <;> simp [configure, h]

/-- Witness for C7 at an ini file defining retries and retry_outcome and a
command line overriding retries. -/
theorem C7_configure_priority_witness :
    configure
        { retries := some "2", retry_delay := none, cumulative_timing := none,
          retry_outcome := some "flakey" }
        { retries := some 3, retry_delay := none, cumulative_timing := none,
          retry_outcome := none }
        defaultOpts
      = cliOverride
          { retries := some 3, retry_delay := none, cumulative_timing := none,
            retry_outcome := none }
          (load_ini
            { retries := some "2", retry_delay := none, cumulative_timing := none,
              retry_outcome := some "flakey" }) :=
  (C7_configure_priority
    { retries := some "2", retry_delay := none, cumulative_timing := none,
      retry_outcome := some "flakey" }
    { retries := some 3, retry_delay := none, cumulative_timing := none,
      retry_outcome := none }).1 (by decide)

/-- C10: when a global retry count is configured through the retries flag
or the retries ini key (both judged by Python truthiness), collection
modification maps every item to itself when its keywords already contain
flaky and otherwise appends one flaky marker carrying the registry default
retries; when no global retry count is configured, the item list is
returned unchanged. -/
theorem C10_collection_marking (cliRetries : Option Int) (ini : IniFile)
    (opts : ConfigOpts) (items : List CollectedItem) :
    (globalRetriesConfigured cliRetries ini = false →
        pytest_collection_modifyitems cliRetries ini opts items = items)
  ∧ (globalRetriesConfigured cliRetries ini = true → ∀ k : Nat,
        (pytest_collection_modifyitems cliRetries ini opts items)[k]? =
          (items[k]?).map fun it =>
            if "flaky" ∈ it.keywords then it
            else { it with addedFlakyRetries := it.addedFlakyRetries ++ [opts.retries] }) := by
  constructor
  · intro h
    simp [pytest_collection_modifyitems, h]
  · intro h k
    simp [pytest_collection_modifyitems, h]

/-- Witness for C10 with the retries flag set to 2 and two collected
items, the first already marked flaky. -/
theorem C10_collection_marking_witness :
    (pytest_collection_modifyitems (some 2)
        { retries := none, retry_delay := none, cumulative_timing := none,
          retry_outcome := none }
        defaultOpts
        [CollectedItem.mk ["flaky"] [], CollectedItem.mk [] []])[1]? =
      ([CollectedItem.mk ["flaky"] [], CollectedItem.mk [] []][1]?).map fun it =>
        if "flaky" ∈ it.keywords then it
        else { it with addedFlakyRetries := it.addedFlakyRetries ++ [defaultOpts.retries] } :=
  (C10_collection_marking (some 2)
    { retries := none, retry_delay := none, cumulative_timing := none,
      retry_outcome := none }
    defaultOpts
    [CollectedItem.mk ["flaky"] [], CollectedItem.mk [] []]).2 (by decide) 1

/-- C2: the retry path of pytest_runtest_makereport is entered exactly
when the call raised, the stage is neither setup nor teardown, the raised
exception is not Skipped, the report is not marked skipped (the xfail
case), the test has a flaky marker whose condition keyword is not the
boolean false, and the composed exception filter accepts the raised
class; each of these conditions alone prevents the retry. -/
theorem C2_retry_decision_characterization (globFiltered globExcluded : FilterArg)
    (item : TestItem) (call : CallInfo) (report : ReportInfo) :
    retryDecision globFiltered globExcluded item call report = Except.ok true ↔
      (∃ exc, call.excinfo = some exc
        ∧ call.whenStage = Stage.call
        ∧ exc.typename ≠ "Skipped"
        ∧ report.skipped = false
        ∧ ∃ m, item.flakyMark = some m
            ∧ m.condition ≠ some false
            ∧ ∃ f, composedFilter m.only_on m.exclude globFiltered globExcluded
                    = Except.ok f
                ∧ f.call (some exc.excType) = Except.ok true) := by
  obtain ⟨ei, st⟩ := call
  obtain ⟨sk⟩ := report
  obtain ⟨mrk⟩ := item
  unfold retryDecision
  cases ei with
  | none => simp [should_handle_retry]
  | some exc =>
    by_cases ht : exc.typename = "Skipped"
    · cases st <;> simp [should_handle_retry, ht]
    · cases st with
      | setup => simp [should_handle_retry]
      | teardown => simp [should_handle_retry]
      | call =>
        cases sk with
        | true => simp [should_handle_retry, ht]
        | false =>
          cases mrk with
          | none => simp [should_handle_retry, ht]
          | some m =>
            by_cases hc : m.condition = some false
            · simp [should_handle_retry, ht, hc]
            · cases hcf : composedFilter m.only_on m.exclude globFiltered globExcluded with
              | error err => simp [should_handle_retry, ht, hc, hcf]
              | ok f =>
                cases hfc : f.call (some exc.excType) with
                | error err => simp [should_handle_retry, ht, hc, hcf, hfc]
                | ok b => cases b <;> simp [should_handle_retry, ht, hc, hcf, hfc]

/-- C1, evaluated at the failing input: a flaky marker with retries = 0 on
a test whose call raised an eligible exception. The loop body still runs
once: the orchestrator executes one additional setup-and-call attempt (so
2 call-stage attempts in total, exceeding the claimed bound 0 + 1 = 1) and
logs a Retrying frame for attempt 1 before exiting with a final frame for
attempt 2. -/
theorem C1_retries_zero_still_retries :
    (runRetryPhase envAlwaysFailing (fun _ => true) 0 false "retried" (some 5)
        "failed" 0 [0, 0] "failed").retryCallsExecuted = 1
  ∧ (runRetryPhase envAlwaysFailing (fun _ => true) 0 false "retried" (some 5)
        "failed" 0 [0, 0] "failed").frames
      = [FrameLog.mk 1 (some 5) RETRY, FrameLog.mk 2 (some 5) FAIL] := by
  constructor <;>
    simp [runRetryPhase, initialLoopState, retryLoop, envAlwaysFailing,
      finalState, iterState, iterOutcome, iterExc, iterDur, RETRY, FAIL, PASS]

/-- C6: whenever the retry loop exits through its normal finalization (not
through the preliminary-teardown break), the duration written to the
original report is the duration of the last executed attempt when
cumulative timing is off, and the sum of all recorded call-stage durations
of the test when cumulative timing is on. -/
theorem C6_timing_modes_at_loop_exit (env : RetryEnv) (filt : Option Nat → Bool)
    (retries : Nat) (cum : Bool) (label : String) (lastExc : Option Nat)
    (s : LoopState)
    (h : (retryLoop env filt retries cum label lastExc s).exitedOnTeardown = false) :
    (cum = false →
        (retryLoop env filt retries cum label lastExc s).origDuration
          = (retryLoop env filt retries cum label lastExc s).lastRetryDuration)
  ∧ (cum = true →
        (retryLoop env filt retries cum label lastExc s).origDuration
          = ((retryLoop env filt retries cum label lastExc s).callDurations).sum) := by
  revert h
  induction lastExc, s using retryLoop.induct env filt retries cum label with
  | case1 lastExc s tdExc htd =>
      intro h
      rw [retryLoop] at h
      simp [htd] at h
  | case2 lastExc s htd hguard ih =>
      intro h
      rw [retryLoop] at h ⊢
      simp only [htd] at h ⊢
      rw [dif_pos hguard] at h ⊢
      exact ih h
  | case3 lastExc s htd hguard =>
      intro h
      rw [retryLoop]
      simp only [htd]
      rw [dif_neg hguard]
      constructor <;> intro hcum <;>
        simp [finalState, iterState, hcum]

/-- Witness for C6 at a concrete run: one retry which fails again, retries
bound 1, overwrite timing mode. -/
theorem C6_timing_modes_witness :
    (false = false →
        (retryLoop envAlwaysFailing (fun _ => true) 1 false "retried" (some 5)
            (initialLoopState "failed" 0 [0, 0] "failed")).origDuration
          = (retryLoop envAlwaysFailing (fun _ => true) 1 false "retried" (some 5)
              (initialLoopState "failed" 0 [0, 0] "failed")).lastRetryDuration)
  ∧ (false = true →
        (retryLoop envAlwaysFailing (fun _ => true) 1 false "retried" (some 5)
            (initialLoopState "failed" 0 [0, 0] "failed")).origDuration
          = ((retryLoop envAlwaysFailing (fun _ => true) 1 false "retried" (some 5)
              (initialLoopState "failed" 0 [0, 0] "failed")).callDurations).sum) :=
  C6_timing_modes_at_loop_exit envAlwaysFailing (fun _ => true) 1 false "retried"
    (some 5) (initialLoopState "failed" 0 [0, 0] "failed")
    (by simp [retryLoop, initialLoopState, envAlwaysFailing, finalState,
      iterState, iterOutcome, iterExc, iterDur])

/-- C8: when the preliminary teardown inside the retry loop raises, the
loop marks the stashed outcome failed, logs exactly one EXIT frame (whose
message template reads teardown failed on attempt N, exiting immediately),
installs the empty caplog-records map, and breaks: every other state
component, in particular the count of executed retry attempts and the
recorded durations, is left untouched, and the teardown error is absorbed
rather than propagated. -/
theorem C8_preliminary_teardown_failure (env : RetryEnv) (filt : Option Nat → Bool)
    (retries : Nat) (cum : Bool) (label : String) (lastExc : Option Nat)
    (s : LoopState) (tdExc : Nat) (htd : env.teardownExc s.attempts = some tdExc) :
    retryLoop env filt retries cum label lastExc s
      = { s with stashOutcome := "failed"
                 frames := s.frames ++ [FrameLog.mk s.attempts (some tdExc) EXIT]
                 caplogCleared := true
                 exitedOnTeardown := true }
  ∧ retryMessages[EXIT]?
      = some " teardown failed on attempt {attempt}! Exiting immediately!\n\t" := by
  constructor
  · rw [retryLoop]
    simp [htd]
  · rfl

/-- Witness for C8 at a concrete run whose preliminary teardown raises
exception class 7 on the first iteration. -/
theorem C8_preliminary_teardown_failure_witness :
    retryLoop envTeardownFailing (fun _ => true) 1 false "retried" (some 5)
        (initialLoopState "failed" 0 [0, 0] "failed")
      = { initialLoopState "failed" 0 [0, 0] "failed" with
          stashOutcome := "failed"
          frames := (initialLoopState "failed" 0 [0, 0] "failed").frames
            ++ [FrameLog.mk (initialLoopState "failed" 0 [0, 0] "failed").attempts
                  (some 7) EXIT]
          caplogCleared := true
          exitedOnTeardown := true }
  ∧ retryMessages[EXIT]?
      = some " teardown failed on attempt {attempt}! Exiting immediately!\n\t" :=
  C8_preliminary_teardown_failure envTeardownFailing (fun _ => true) 1 false
    "retried" (some 5) (initialLoopState "failed" 0 [0, 0] "failed") 7 rfl

/-- Helper: feeding a complete per-test record into the transport client
keeps buffering through its Retrying frames and emits, at the final frame,
exactly one atomic write holding the prior buffer followed by the whole
record, after which the buffer is reset. -/
theorem clientSend_completeRecord (t : Nat) (fs : List Frame) (buf rest : List Frame)
    (h : completeRecord t fs) :
    clientSend buf (fs ++ rest) = (buf ++ fs) :: clientSend [] rest := by
  induction fs generalizing buf with
  | nil => simp [completeRecord] at h
  | cons f fs2 ih =>
    obtain ⟨hmem, hdrop, hlast⟩ := h
    cases fs2 with
    | nil =>
      have hret : f.retrying = false := by
        simpa using hlast
      simp [clientSend, hret]
    | cons g fs3 =>
      have hret : f.retrying = true := hdrop f (by simp)
      have h2 : completeRecord t (g :: fs3) := by
        refine ⟨fun x hx => hmem x (by simp [hx]), fun x hx => hdrop x ?_, ?_⟩
        · simpa using Or.inr hx
        · simpa using hlast
      have step : clientSend buf ((f :: g :: fs3) ++ rest)
          = clientSend (buf ++ [f]) ((g :: fs3) ++ rest) := by
        simp [clientSend, hret]
      rw [step, ih (buf ++ [f]) h2]
      simp

/-- Helper: over a worker stream that is a concatenation of complete
per-test records, the transport client emits exactly one atomic write per
record, holding exactly that record. -/
theorem workerWrites_of_records (w : List (Nat × List Frame))
    (h : ∀ r ∈ w, completeRecord r.1 r.2) :
    workerWrites w = w.map Prod.snd := by
  unfold workerWrites
  induction w with
  | nil => simp [workerStream, clientSend]
  | cons r w2 ih =>
    have h1 : completeRecord r.1 r.2 := h r (by simp)
    have hstream : workerStream (r :: w2) = r.2 ++ workerStream w2 := by
      simp [workerStream]
    rw [hstream, clientSend_completeRecord r.1 r.2 [] (workerStream w2) h1]
    simp only [List.map_cons, List.nil_append]
    rw [ih (fun x hx => h x (List.mem_cons_of_mem r hx))]

/-- C9: in a multi-worker run in which every worker emits its tests as
complete per-test records and test identities are globally distinct, the
narrative frames of any given test form one contiguous block of the
controller buffer, for every arrival order of the atomic client writes:
no frame of another test appears inside the block. The controller buffer
is the flattening, in arrival order, of the atomic writes produced by the
clients of all the workers. -/
theorem C9_transport_contiguity (workers : List (List (Nat × List Frame)))
    (t : Nat) (fs : List Frame)
    (hwf : ∀ w ∈ workers, ∀ r ∈ w, completeRecord r.1 r.2)
    (hnodup : ((workers.flatten).map Prod.fst).Nodup)
    (hmem : (t, fs) ∈ workers.flatten)
    (out : List (List Frame))
    (hperm : out.Perm ((workers.map workerWrites).flatten)) :
    ∃ pre post, out.flatten = pre ++ fs ++ post
      ∧ (∀ f ∈ pre, f.test ≠ t) ∧ (∀ f ∈ post, f.test ≠ t) := by
  have hrec : ∀ r ∈ workers.flatten, completeRecord r.1 r.2 := by
    intro r hr
    obtain ⟨w, hw, hrw⟩ := List.mem_flatten.mp hr
    exact hwf w hw r hrw
  have hwrites : (workers.map workerWrites).flatten = (workers.flatten).map Prod.snd := by
    have h1 : workers.map workerWrites = workers.map (fun w => w.map Prod.snd) :=
      List.map_congr_left (fun w hw => workerWrites_of_records w (hwf w hw))
    rw [h1]
    simp [List.map_flatten]
  obtain ⟨A, B, hAB⟩ := List.append_of_mem hmem
  have hsplit : ((A.map Prod.fst ++ t :: B.map Prod.fst)).Nodup := by
    rw [hAB] at hnodup
    simpa using hnodup
  have hmid := (List.nodup_middle).mp hsplit
  have htA : t ∉ A.map Prod.fst := fun hx =>
    (List.nodup_cons.mp hmid).1 (List.mem_append.mpr (Or.inl hx))
  have htB : t ∉ B.map Prod.fst := fun hx =>
    (List.nodup_cons.mp hmid).1 (List.mem_append.mpr (Or.inr hx))
  have hperm2 : out.Perm (A.map Prod.snd ++ fs :: B.map Prod.snd) := by
    rw [hwrites, hAB] at hperm
    simpa using hperm
  have hfs : fs ∈ out := hperm2.mem_iff.mpr (by simp)
  obtain ⟨l, r, hlr⟩ := List.append_of_mem hfs
  have hperm3 : (l ++ r).Perm (A.map Prod.snd ++ B.map Prod.snd) := by
    have hstep1 : (fs :: (l ++ r)).Perm (l ++ fs :: r) := List.perm_middle.symm
    have hstep2 : (l ++ fs :: r).Perm (A.map Prod.snd ++ fs :: B.map Prod.snd) := by
      rw [← hlr]
      exact hperm2
    have hstep3 : (A.map Prod.snd ++ fs :: B.map Prod.snd).Perm
        (fs :: (A.map Prod.snd ++ B.map Prod.snd)) := List.perm_middle
    exact ((hstep1.trans hstep2).trans hstep3).cons_inv
  have hnot : ∀ w ∈ A.map Prod.snd ++ B.map Prod.snd, ∀ f ∈ w, f.test ≠ t := by
    intro w hw f hf
    rcases List.mem_append.mp hw with hA2 | hB2
    · obtain ⟨r0, hr0, hr0w⟩ := List.mem_map.mp hA2
      have hc : completeRecord r0.1 r0.2 := hrec r0 (by rw [hAB]; simp [hr0])
      have hft : f.test = r0.1 := hc.1 f (by rw [hr0w]; exact hf)
      intro hcontra
      exact htA (List.mem_map.mpr ⟨r0, hr0, by rw [← hft, hcontra]⟩)
    · obtain ⟨r0, hr0, hr0w⟩ := List.mem_map.mp hB2
      have hc : completeRecord r0.1 r0.2 := hrec r0 (by rw [hAB]; simp [hr0])
      have hft : f.test = r0.1 := hc.1 f (by rw [hr0w]; exact hf)
      intro hcontra
      exact htB (List.mem_map.mpr ⟨r0, hr0, by rw [← hft, hcontra]⟩)
  refine ⟨l.flatten, r.flatten, ?_, ?_, ?_⟩
  · rw [hlr]
    simp
  · intro f hf
    obtain ⟨w, hw, hfw⟩ := List.mem_flatten.mp hf
    exact hnot w (hperm3.subset (List.mem_append.mpr (Or.inl hw))) f hfw
  · intro f hf
    obtain ⟨w, hw, hfw⟩ := List.mem_flatten.mp hf
    exact hnot w (hperm3.subset (List.mem_append.mpr (Or.inr hw))) f hfw

/-- Witness for C9: two workers, one with a test 0 retried once (two
frames), one with a test 1 passing its narrative in a single frame; the
controller receives the two atomic writes in reversed order. -/
theorem C9_transport_contiguity_witness :
    ∃ pre post,
      ([[Frame.mk 1 1 false], [Frame.mk 0 1 true, Frame.mk 0 2 false]] :
          List (List Frame)).flatten
        = pre ++ [Frame.mk 0 1 true, Frame.mk 0 2 false] ++ post
      ∧ (∀ f ∈ pre, f.test ≠ 0) ∧ (∀ f ∈ post, f.test ≠ 0) :=
  C9_transport_contiguity
    [[(0, [Frame.mk 0 1 true, Frame.mk 0 2 false])], [(1, [Frame.mk 1 1 false])]]
    0 [Frame.mk 0 1 true, Frame.mk 0 2 false]
    (by decide) (by decide) (by decide)
    [[Frame.mk 1 1 false], [Frame.mk 0 1 true, Frame.mk 0 2 false]]
    (by decide)

end PytestRetry
